import Mathlib

/-!
Verification development for the smart-home agent (src/src/agent.py, src/main.py).

The Python source is shallowly embedded below: pydantic models become Lean
structures with an explicit validating constructor (`LightStatus.mk?`, standing
for pydantic's validation at construction time), device handles become explicit
attribute records threaded through the operations, and the side effects of the
dirigera client calls are recorded in an explicit `DeviceCall` trace.  The
orchestrator (`run_agent` / `reset_agent`) is embedded with the global
`all_messages` state passed explicitly and the external model service
(`agent.run`) abstracted as a function that may fail; its internal tool loop's
device effects are part of its result, so an empty event trace witnesses that
neither the model nor any device was called.
-/

namespace SmartHome

/-! ## Data model (agent.py lines 26-43) -/

/-- Embedding of `AgentRequest`: a single `prompt` field. -/
structure AgentRequest where
  prompt : String
deriving Repr, DecidableEq

/-- Embedding of the pydantic `LightStatus` model: every field is nullable.
Floats (`light_hue`, `light_saturation`) are modelled as rationals. -/
structure LightStatus where
  is_on : Option Bool
  light_level : Option Int
  light_hue : Option ℚ
  light_saturation : Option ℚ
deriving Repr, DecidableEq

/-- pydantic default for `light_level` (`default=100`). -/
def default_light_level : Option Int := some 100

/-- pydantic default for `light_hue` (`default=0`). -/
def default_light_hue : Option ℚ := some 0

/-- pydantic default for `light_saturation` (`default=1`). -/
def default_light_saturation : Option ℚ := some 1

/-- The pydantic `Field` bound checks of `LightStatus`: `light_level` has
`ge=0, le=100`, `light_hue` has `ge=0, le=100` (although its description says
0 to 360), `light_saturation` has `ge=0, le=1`.  A `None` value skips the
bound check of its field. -/
def LightStatus.valid (s : LightStatus) : Bool :=
  (match s.light_level with
   | none => true
   | some l => decide (0 ≤ l) && decide (l ≤ 100)) &&
  (match s.light_hue with
   | none => true
   | some h => decide (0 ≤ h) && decide (h ≤ 100)) &&
  (match s.light_saturation with
   | none => true
   | some x => decide (0 ≤ x) && decide (x ≤ 1))

/-- Constructing a `LightStatus` value runs pydantic validation: out-of-range
fields raise a `ValidationError` instead of producing a value. -/
def LightStatus.mk? (is_on : Option Bool) (light_level : Option Int)
    (light_hue : Option ℚ) (light_saturation : Option ℚ) :
    Except String LightStatus :=
  let s : LightStatus := ⟨is_on, light_level, light_hue, light_saturation⟩
  if s.valid then Except.ok s else Except.error "ValidationError"

/-! ## Device attributes and operations (dirigera client, used by agent.py) -/

/-- Attributes of a binary outlet (`Outlet.attributes`). -/
structure OutletAttributes where
  is_on : Bool
deriving Repr, DecidableEq

/-- Attributes of the color light (`Light.attributes`): the dirigera client
exposes `light_level`, `color_hue` and `color_saturation` as nullable, and the
device hue domain extends to 360. -/
structure LightAttributes where
  is_on : Bool
  light_level : Option Int
  color_hue : Option ℚ
  color_saturation : Option ℚ
deriving Repr, DecidableEq

/-- One physical device-gateway call issued by the tools. -/
inductive DeviceCall where
  | deskLampSetOn (b : Bool)
  | lightChainSetOn (b : Bool)
  | setLight (b : Bool)
  | setLightLevel (l : Int)
  | setLightColor (hue saturation : ℚ)
deriving Repr, DecidableEq

/-- Embedding of `Light.set_light`: switches the lamp on or off. -/
def Light.set_light (a : LightAttributes) (b : Bool) : LightAttributes :=
  { a with is_on := b }

/-- Embedding of `Light.set_light_level`: sets the brightness attribute. -/
def Light.set_light_level (a : LightAttributes) (l : Int) : LightAttributes :=
  { a with light_level := some l }

/-- Embedding of `Light.set_light_color`: sets hue and saturation together. -/
def Light.set_light_color (a : LightAttributes) (h s : ℚ) : LightAttributes :=
  { a with color_hue := some h, color_saturation := some s }

/-- Embedding of `DeviceDeps`: the gateway flag plus the device handles.  In the
source the handles exist only when `has_dirigera` is true, and every access to
them is guarded by the flag; here they are always present, and the theorems
show that on the `has_dirigera = false` paths no result depends on them. -/
structure DeviceDeps where
  has_dirigera : Bool
  desk_lamp_outlet : OutletAttributes
  light_chain_outlet : OutletAttributes
  room_lights : LightAttributes
deriving Repr, DecidableEq

/-! ## Number formatting (Python `:.1f`) -/

/-- Round to the nearest integer, ties to even (the rounding Python applies
when formatting with `:.1f`; the binary-double representation error is
abstracted away by working on rationals). -/
def roundHalfToEven (q : ℚ) : Int :=
  let f : Int := ⌊q⌋
  let frac : ℚ := q - f
  if frac < 1 / 2 then f
  else if 1 / 2 < frac then f + 1
  else if f % 2 = 0 then f else f + 1

/-- Python `f"{q:.1f}"`: fixed-point formatting with one decimal digit. -/
def formatFix1 (q : ℚ) : String :=
  let n : Int := roundHalfToEven (q * 10)
  if n < 0 then
    "-" ++ toString ((-n) / 10) ++ "." ++ toString ((-n) % 10)
  else
    toString (n / 10) ++ "." ++ toString (n % 10)

/-! ## Status projections (agent.py lines 73-102) -/

/-- Embedding of `DeviceDeps.desk_lamp_status`. -/
def DeviceDeps.desk_lamp_status (self : DeviceDeps) : String :=
  if !self.has_dirigera then "off"
  else if self.desk_lamp_outlet.is_on then "on" else "off"

/-- Embedding of `DeviceDeps.light_chain_status`. -/
def DeviceDeps.light_chain_status (self : DeviceDeps) : String :=
  if !self.has_dirigera then "off"
  else if self.light_chain_outlet.is_on then "on" else "off"

/-- Embedding of `DeviceDeps.room_lights_status`.  The source reads the three color
attributes and `assert`s that none of them is `None` before branching on
`is_on`; a failing assert is an `AssertionError`, embedded as `Except.error`. -/
def DeviceDeps.room_lights_status (self : DeviceDeps) : Except String String :=
  if !self.has_dirigera then Except.ok "off"
  else
    match self.room_lights.color_hue, self.room_lights.color_saturation,
        self.room_lights.light_level with
    | some hue, some sat, some br =>
        Except.ok
          (if self.room_lights.is_on then
            "on, with color hue " ++ formatFix1 hue ++ ", saturation " ++
              formatFix1 (sat * 100) ++ "% and brightness " ++
              formatFix1 ((br : ℚ) / 100) ++ "%."
          else "off")
    | _, _, _ => Except.error "AssertionError"

/-! ## Tools (agent.py lines 164-216) -/

/-- Embedding of `toggle_desk_light`: sets the outlet when the gateway is present. -/
def toggle_desk_light (deps : DeviceDeps) (is_on : Bool) :
    DeviceDeps × List DeviceCall :=
  if deps.has_dirigera then
    ({ deps with desk_lamp_outlet := ⟨is_on⟩ }, [DeviceCall.deskLampSetOn is_on])
  else (deps, [])

/-- Embedding of `toggle_light_chain`: sets the outlet when the gateway is present. -/
def toggle_light_chain (deps : DeviceDeps) (is_on : Bool) :
    DeviceDeps × List DeviceCall :=
  if deps.has_dirigera then
    ({ deps with light_chain_outlet := ⟨is_on⟩ },
     [DeviceCall.lightChainSetOn is_on])
  else (deps, [])

/-- The body of `toggle_room_lights` on the gateway path, before the readback:
applies the present fields of `new_status` in the source's order (on/off, then
brightness, then hue+saturation as a pair), recording the issued calls. -/
def applyRoomUpdateWithCalls (a : LightAttributes) (upd : LightStatus) :
    LightAttributes × List DeviceCall :=
  let s1 : LightAttributes × List DeviceCall :=
    match upd.is_on with
    | some b => (Light.set_light a b, [DeviceCall.setLight b])
    | none => (a, [])
  let s2 : LightAttributes × List DeviceCall :=
    match upd.light_level with
    | some l => (Light.set_light_level s1.1 l, s1.2 ++ [DeviceCall.setLightLevel l])
    | none => s1
  match upd.light_hue, upd.light_saturation with
  | some h, some s =>
      (Light.set_light_color s2.1 h s, s2.2 ++ [DeviceCall.setLightColor h s])
  | _, _ => s2

/-- Embedding of `toggle_room_lights`: on the gateway path, applies the update and then
re-reads the attributes into a fresh `LightStatus` (whose construction
re-runs pydantic validation); off the gateway path, returns
`LightStatus(is_on=False)` (the remaining fields take their pydantic
defaults) and issues no call. -/
def toggle_room_lights (deps : DeviceDeps) (new_status : LightStatus) :
    Except String LightStatus × DeviceDeps × List DeviceCall :=
  if deps.has_dirigera then
    let r := applyRoomUpdateWithCalls deps.room_lights new_status
    let new_attributes := r.1
    (LightStatus.mk? (some new_attributes.is_on) new_attributes.light_level
        new_attributes.color_hue new_attributes.color_saturation,
     { deps with room_lights := new_attributes }, r.2)
  else
    (LightStatus.mk? (some false) default_light_level default_light_hue
        default_light_saturation,
     deps, [])

/-! ## Agent orchestrator (agent.py lines 109-136) -/

/-- A message of the conversation transcript; its content is opaque to the
orchestrator, which only stores and forwards whole transcripts. -/
structure ModelMessage where
  content : String
deriving Repr, DecidableEq

/-- What one `agent.run` invocation produces when it succeeds: the final text
`output`, the full transcript `all_messages` of the turn, and the device
calls its internal tool loop issued. -/
structure ModelResult where
  output : String
  all_messages : List ModelMessage
  device_calls : List DeviceCall
deriving Repr, DecidableEq

/-- The external model service behind `agent.run`: given the user prompt and
the prior `message_history`, it either completes the turn or fails
(`ModelServiceError`). -/
def ModelService : Type :=
  String → Option (List ModelMessage) → Except String ModelResult

/-- Observable events of one `run_agent` turn: a model invocation (recording
the history it was handed) or a device effect from the tool loop. -/
inductive TurnEvent where
  | modelCall (prompt : String) (message_history : Option (List ModelMessage))
  | deviceEffect (c : DeviceCall)
deriving Repr, DecidableEq

/-- Embedding of `run_agent`: with the agent disabled it returns `"Echo: "` plus the raw
prompt and does nothing else; otherwise it invokes the model with the global
`all_messages` as history, stores `result.all_messages()` back into the
global (only on success — the assignment follows the `await`), and returns
`result.output`.  The global is passed and returned explicitly, together
with the turn's event trace. -/
def run_agent (model : ModelService) (enable_agent : Bool) (req : AgentRequest)
    (all_messages : Option (List ModelMessage)) :
    Except String String × Option (List ModelMessage) × List TurnEvent :=
  if !enable_agent then
    (Except.ok ("Echo: " ++ req.prompt), all_messages, [])
  else
    match model req.prompt all_messages with
    | Except.error e =>
        (Except.error e, all_messages, [TurnEvent.modelCall req.prompt all_messages])
    | Except.ok result =>
        (Except.ok result.output, some result.all_messages,
         TurnEvent.modelCall req.prompt all_messages ::
           result.device_calls.map TurnEvent.deviceEffect)

/-- Embedding of `reset_agent`: unconditionally clears the global `all_messages`. -/
def reset_agent (_all_messages : Option (List ModelMessage)) :
    Option (List ModelMessage) :=
  none

/-- One caller action against the HTTP surface: a `/converse` turn or a
`/reset`. -/
inductive Action where
  | turn (req : AgentRequest)
  | reset
deriving Repr, DecidableEq

/-- Runs a sequence of turns and resets against the conversation state. -/
def runActions (model : ModelService) (enable_agent : Bool) :
    List Action → Option (List ModelMessage) → Option (List ModelMessage)
  | [], st => st
  | Action.turn req :: rest, st =>
      runActions model enable_agent rest (run_agent model enable_agent req st).2.1
  | Action.reset :: rest, st =>
      runActions model enable_agent rest (reset_agent st)

/-! ## get_current_time (agent.py lines 219-235) -/

/-- An injected clock value: everything `get_current_time` reads from
`datetime.datetime.now()`.  `weekday` 0 is Monday, `month` 0 is January. -/
structure DateTime where
  weekday : Fin 7
  day : ℕ
  month : Fin 12
  year : ℕ
  hour : Fin 24
  minute : Fin 60
deriving Repr, DecidableEq

/-- Python `strftime("%A")`: the full weekday name. -/
def weekdayName : Fin 7 → String
  | 0 => "Monday"
  | 1 => "Tuesday"
  | 2 => "Wednesday"
  | 3 => "Thursday"
  | 4 => "Friday"
  | 5 => "Saturday"
  | 6 => "Sunday"

/-- The seven weekday names, as the spec pattern ranges over them. -/
def weekdayNames : List String :=
  ["Monday", "Tuesday", "Wednesday", "Thursday", "Friday", "Saturday", "Sunday"]

/-- Python `strftime("%B")`: the full month name. -/
def monthName : Fin 12 → String
  | 0 => "January"
  | 1 => "February"
  | 2 => "March"
  | 3 => "April"
  | 4 => "May"
  | 5 => "June"
  | 6 => "July"
  | 7 => "August"
  | 8 => "September"
  | 9 => "October"
  | 10 => "November"
  | 11 => "December"

/-- The twelve month names, as the spec pattern ranges over them. -/
def monthNames : List String :=
  ["January", "February", "March", "April", "May", "June", "July", "August",
   "September", "October", "November", "December"]

/-- Zero-padded two-digit decimal, as `strftime` pads `%I` and `%M`. -/
def fmt2 (n : ℕ) : String :=
  if n < 10 then "0" ++ toString n else toString n

/-- Python `strftime("%I")`: the zero-padded 12-hour clock hour. -/
def strftime_I (hour : Fin 24) : String :=
  fmt2 (if hour.val % 12 = 0 then 12 else hour.val % 12)

/-- Python `strftime("%p")`: `"AM"` before noon, `"PM"` after. -/
def strftime_p (hour : Fin 24) : String :=
  if hour.val < 12 then "AM" else "PM"

/-- Embedding of `get_current_time`, over an injected clock value. -/
def get_current_time (now : DateTime) : String :=
  "Today is " ++ weekdayName now.weekday ++ ", " ++ toString now.day ++ ". " ++
    monthName now.month ++ " " ++ toString now.year ++ ". It is currently " ++
    strftime_I now.hour ++ ":" ++ fmt2 now.minute ++ strftime_p now.hour ++ "."

/-- The spec's output pattern for `get_current_time`, word for word:
`<Weekday>, <Day>. <Month> <Year>. It is currently <HH>:<MM><AM|PM>.` with a
weekday name, a day number, a month name, a year number, and a zero-padded
12-hour time with an AM/PM marker. -/
def specTimePattern (s : String) : Prop :=
  ∃ wd dayStr mon yrStr hh mm ap,
    wd ∈ weekdayNames ∧ mon ∈ monthNames ∧
    (∃ d : ℕ, dayStr = toString d) ∧
    (∃ y : ℕ, yrStr = toString y) ∧
    (∃ k : ℕ, 1 ≤ k ∧ k ≤ 12 ∧ hh = fmt2 k) ∧
    (∃ m : ℕ, m < 60 ∧ mm = fmt2 m) ∧
    (ap = "AM" ∨ ap = "PM") ∧
    s = wd ++ ", " ++ dayStr ++ ". " ++ mon ++ " " ++ yrStr ++
      ". It is currently " ++ hh ++ ":" ++ mm ++ ap ++ "."

/-- The spec pattern amended with the source's literal `"Today is "` prefix:
the whole output is `Today is <Weekday>, <Day>. <Month> <Year>. It is
currently <HH>:<MM><AM|PM>.` -/
def specTimePatternPrefixed (s : String) : Prop :=
  ∃ wd dayStr mon yrStr hh mm ap,
    wd ∈ weekdayNames ∧ mon ∈ monthNames ∧
    (∃ d : ℕ, dayStr = toString d) ∧
    (∃ y : ℕ, yrStr = toString y) ∧
    (∃ k : ℕ, 1 ≤ k ∧ k ≤ 12 ∧ hh = fmt2 k) ∧
    (∃ m : ℕ, m < 60 ∧ mm = fmt2 m) ∧
    (ap = "AM" ∨ ap = "PM") ∧
    s = "Today is " ++ wd ++ ", " ++ dayStr ++ ". " ++ mon ++ " " ++ yrStr ++
      ". It is currently " ++ hh ++ ":" ++ mm ++ ap ++ "."

/-! ## Spec-side descriptions and concrete sample values used by the theorems -/

/-- The on/off call the gateway path issues for an update, per the spec's
ordering clause. -/
def onOffCalls (upd : LightStatus) : List DeviceCall :=
  match upd.is_on with
  | some b => [DeviceCall.setLight b]
  | none => []

/-- The brightness call the gateway path issues for an update. -/
def brightnessCalls (upd : LightStatus) : List DeviceCall :=
  match upd.light_level with
  | some l => [DeviceCall.setLightLevel l]
  | none => []

/-- The color call the gateway path issues for an update: only when hue and
saturation are both present. -/
def colorCalls (upd : LightStatus) : List DeviceCall :=
  match upd.light_hue, upd.light_saturation with
  | some h, some s => [DeviceCall.setLightColor h s]
  | _, _ => []

/-- The histories handed to the model, in order, during a turn's events. -/
def modelCallHistories (events : List TurnEvent) :
    List (Option (List ModelMessage)) :=
  events.filterMap fun e =>
    match e with
    | TurnEvent.modelCall _ h => some h
    | TurnEvent.deviceEffect _ => none

/-- A concrete environment without a gateway. -/
def sampleNoGatewayDeps : DeviceDeps :=
  ⟨false, ⟨true⟩, ⟨false⟩, ⟨true, some 50, some 20, some (1 / 2)⟩⟩

/-- A concrete environment with a gateway and in-range light attributes. -/
def sampleGatewayDeps : DeviceDeps :=
  ⟨true, ⟨false⟩, ⟨true⟩, ⟨true, some 50, some 20, some (1 / 2)⟩⟩

/-- A concrete environment with a gateway whose light reports hue 200 (the
device hue domain extends to 360, beyond the validated 0-100 range). -/
def sampleHighHueDeps : DeviceDeps :=
  ⟨true, ⟨false⟩, ⟨true⟩, ⟨true, some 50, some 200, some (1 / 2)⟩⟩

/-- A concrete update that sets only hue (and brightness), not saturation. -/
def updHueOnly : LightStatus := ⟨none, some 30, some 10, none⟩

/-- A model service that always fails (a `ModelServiceError`). -/
def failingModel : ModelService := fun _ _ => Except.error "timeout"

/-- A stub model service that completes every turn, echoing the prompt into
the transcript, with no device calls. -/
def stubModel : ModelService := fun p _ =>
  Except.ok ⟨"ok:" ++ p, [⟨p⟩], []⟩

/-- A fixed clock value: Monday, 12. October 2025, 09:30 in the morning. -/
def sampleClock : DateTime := ⟨0, 12, 9, 2025, 9, 30⟩

/-! ## Theorems -/

/-- C1: with the agent-enabled flag false (echo mode), a turn with any prompt
returns exactly `"Echo: "` concatenated with the prompt, leaves the
conversation state unchanged, and produces no events at all — in particular no
model call and no device call, for every model service whatsoever, so the
check happens before any model call is attempted. -/
theorem echo_mode_turn (model : ModelService) (req : AgentRequest)
    (st : Option (List ModelMessage)) :
    run_agent model false req st =
      (Except.ok ("Echo: " ++ req.prompt), st, []) := rfl

/-- C2 counterexample: with no gateway, `toggle_room_lights` on
`{is_on: true}` returns a status whose remaining fields are the pydantic
defaults `100`, `0`, `1` — not unset (`none`) as the claim states. -/
theorem no_gateway_fields_not_unset :
    (toggle_room_lights sampleNoGatewayDeps ⟨some true, none, none, none⟩).1 =
      Except.ok ⟨some false, some 100, some 0, some 1⟩ ∧
    (⟨some false, some 100, some 0, some 1⟩ : LightStatus).light_level ≠ none ∧
    (⟨some false, some 100, some 0, some 1⟩ : LightStatus).light_hue ≠ none ∧
    (⟨some false, some 100, some 0, some 1⟩ : LightStatus).light_saturation ≠
      none := by
  refine ⟨rfl, ?_, ?_, ?_⟩ <;> simp

/-- C2 amended: with the gateway flag false, `toggle_room_lights` issues no
device call, leaves the environment untouched, and returns a status with
`is_on = false` and the remaining fields at their declared pydantic defaults
(`light_level = 100`, `light_hue = 0`, `light_saturation = 1`). -/
theorem no_gateway_returns_defaults (deps : DeviceDeps) (upd : LightStatus)
    (hgw : deps.has_dirigera = false) :
    toggle_room_lights deps upd =
      (Except.ok ⟨some false, some 100, some 0, some 1⟩, deps, []) := by
  unfold toggle_room_lights
  rw [hgw]
  rfl

/-- Witness for C2 amended, at a concrete environment and update. -/
theorem no_gateway_returns_defaults_witness :
    toggle_room_lights sampleNoGatewayDeps ⟨some true, none, none, none⟩ =
      (Except.ok ⟨some false, some 100, some 0, some 1⟩, sampleNoGatewayDeps,
       []) :=
  no_gateway_returns_defaults sampleNoGatewayDeps ⟨some true, none, none, none⟩
    rfl

/-- C5: if the model call of a turn fails, the turn fails with that error and
the conversation state is returned exactly as it was (no partial append). -/
theorem model_failure_leaves_state (model : ModelService) (req : AgentRequest)
    (st : Option (List ModelMessage)) (e : String)
    (hfail : model req.prompt st = Except.error e) :
    run_agent model true req st =
      (Except.error e, st, [TurnEvent.modelCall req.prompt st]) := by
  simp [run_agent, hfail]

/-- Witness for C5, with a concrete always-failing model service. -/
theorem model_failure_leaves_state_witness :
    run_agent failingModel true ⟨"hi"⟩ (some [⟨"m"⟩]) =
      (Except.error "timeout", some [⟨"m"⟩],
       [TurnEvent.modelCall "hi" (some [⟨"m"⟩])]) :=
  model_failure_leaves_state failingModel ⟨"hi"⟩ (some [⟨"m"⟩]) "timeout" rfl

/-- C6: after a successful turn the conversation state equals the complete
transcript the orchestrator returned for that turn, and the following turn's
model invocation receives exactly that transcript as its prior history
(whether or not the second model call succeeds). -/
theorem history_threading (model : ModelService) (req1 req2 : AgentRequest)
    (st0 : Option (List ModelMessage)) (r1 : ModelResult)
    (h1 : model req1.prompt st0 = Except.ok r1) :
    (run_agent model true req1 st0).2.1 = some r1.all_messages ∧
    TurnEvent.modelCall req2.prompt (some r1.all_messages) ∈
      (run_agent model true req2 (run_agent model true req1 st0).2.1).2.2 := by
  have hst : (run_agent model true req1 st0).2.1 = some r1.all_messages := by
    simp [run_agent, h1]
  refine ⟨hst, ?_⟩
  rw [hst]
  cases h2 : model req2.prompt (some r1.all_messages) <;> simp [run_agent, h2]

/-- Witness for C6, with a concrete stub model service over two turns. -/
theorem history_threading_witness :
    (run_agent stubModel true ⟨"a"⟩ none).2.1 = some [⟨"a"⟩] ∧
    TurnEvent.modelCall "b" (some [⟨"a"⟩]) ∈
      (run_agent stubModel true ⟨"b"⟩
        (run_agent stubModel true ⟨"a"⟩ none).2.1).2.2 :=
  history_threading stubModel ⟨"a"⟩ ⟨"b"⟩ none ⟨"ok:a", [⟨"a"⟩], []⟩ rfl

/-- No event obtained by wrapping a device call is a model call, so the model
histories of such a list are empty. -/
theorem modelCallHistories_deviceEffects (cs : List DeviceCall) :
    modelCallHistories (cs.map TurnEvent.deviceEffect) = [] := by
  induction cs with
  | nil => rfl
  | cons c cs ih => simp [modelCallHistories] at ih ⊢

/-- Running actions distributes over list concatenation. -/
theorem runActions_append (model : ModelService) (enable_agent : Bool)
    (l₁ l₂ : List Action) (st : Option (List ModelMessage)) :
    runActions model enable_agent (l₁ ++ l₂) st =
      runActions model enable_agent l₂ (runActions model enable_agent l₁ st) := by
  induction l₁ generalizing st with
  | nil => rfl
  | cons a rest ih => cases a <;> simp [runActions, ih]

/-- C7: after any sequence of turns and resets ending in a reset the
conversation state is empty (the reset is total and unconditional), and the
turn run right after a reset hands the model exactly one history, `none` —
no prior messages. -/
theorem reset_clears_history (model : ModelService) (enable_agent : Bool)
    (acts : List Action) (st : Option (List ModelMessage))
    (req : AgentRequest) :
    runActions model enable_agent (acts ++ [Action.reset]) st = none ∧
    modelCallHistories (run_agent model true req (reset_agent st)).2.2 =
      [none] := by
  constructor
  · rw [runActions_append]
    rfl
  · cases h : model req.prompt none <;>
      simp [run_agent, reset_agent, h, modelCallHistories,
        modelCallHistories_deviceEffects]

/-- C3: on the gateway path, an update carrying hue without saturation (or
saturation without hue) leaves the device's hue and saturation both
unchanged, and the calls actually issued are always the on/off call, then
the brightness call, then the paired color call, in that order. -/
theorem partial_color_pair_and_call_order (deps : DeviceDeps)
    (upd : LightStatus) (hgw : deps.has_dirigera = true) :
    ((upd.light_hue = none ∨ upd.light_saturation = none) →
      (toggle_room_lights deps upd).2.1.room_lights.color_hue =
          deps.room_lights.color_hue ∧
        (toggle_room_lights deps upd).2.1.room_lights.color_saturation =
          deps.room_lights.color_saturation) ∧
    (toggle_room_lights deps upd).2.2 =
      onOffCalls upd ++ brightnessCalls upd ++ colorCalls upd := by
  obtain ⟨o, l, hu, sa⟩ := upd
  cases o <;> cases l <;> cases hu <;> cases sa <;>
    simp [toggle_room_lights, hgw, applyRoomUpdateWithCalls, Light.set_light,
      Light.set_light_level, Light.set_light_color, onOffCalls,
      brightnessCalls, colorCalls]

/-- Witness for C3: a hue-only update in a concrete gateway environment
changes neither hue nor saturation and issues only the brightness call. -/
theorem partial_color_pair_and_call_order_witness :
    (toggle_room_lights sampleGatewayDeps updHueOnly).2.1.room_lights.color_hue
        = sampleGatewayDeps.room_lights.color_hue ∧
      (toggle_room_lights sampleGatewayDeps
            updHueOnly).2.1.room_lights.color_saturation =
        sampleGatewayDeps.room_lights.color_saturation ∧
      (toggle_room_lights sampleGatewayDeps updHueOnly).2.2 =
        onOffCalls updHueOnly ++ brightnessCalls updHueOnly ++
          colorCalls updHueOnly := by
  have h := partial_color_pair_and_call_order sampleGatewayDeps updHueOnly rfl
  exact ⟨(h.1 (Or.inr rfl)).1, (h.1 (Or.inr rfl)).2, h.2⟩

/-- C4: constructing a `LightStatus` whose `light_level` lies outside
`[0, 100]`, whose `light_hue` lies outside `[0, 100]` (the validated range,
despite the documented 0-360 domain), or whose `light_saturation` lies
outside `[0, 1]` is rejected with a `ValidationError` — never silently
accepted — so no such value ever reaches the device gateway. -/
theorem lightstatus_rejects_out_of_range (is_on : Option Bool)
    (lvl : Option Int) (hue sat : Option ℚ)
    (hbad : (∃ l, lvl = some l ∧ (l < 0 ∨ 100 < l)) ∨
            (∃ h, hue = some h ∧ (h < 0 ∨ 100 < h)) ∨
            (∃ x, sat = some x ∧ (x < 0 ∨ 1 < x))) :
    LightStatus.mk? is_on lvl hue sat = Except.error "ValidationError" := by
  have hvalid : LightStatus.valid ⟨is_on, lvl, hue, sat⟩ = false := by
    rcases hbad with ⟨l, rfl, hl⟩ | ⟨h, rfl, hh⟩ | ⟨x, rfl, hx⟩
    · have h1 : (decide (0 ≤ l) && decide (l ≤ 100)) = false := by
        rcases hl with hl | hl <;>
          simp [decide_eq_false_iff_not.mpr (not_le.mpr hl)]
      simp [LightStatus.valid, h1]
    · have h1 : (decide (0 ≤ h) && decide (h ≤ 100)) = false := by
        rcases hh with hh | hh <;>
          simp [decide_eq_false_iff_not.mpr (not_le.mpr hh)]
      simp [LightStatus.valid, h1]
    · have h1 : (decide (0 ≤ x) && decide (x ≤ 1)) = false := by
        rcases hx with hx | hx <;>
          simp [decide_eq_false_iff_not.mpr (not_le.mpr hx)]
      simp [LightStatus.valid, h1]
  simp [LightStatus.mk?, hvalid]

/-- Witness for C4: `light_level = 150`, `light_hue = 150` and
`light_saturation = 2` are each rejected. -/
theorem lightstatus_rejects_out_of_range_witness :
    LightStatus.mk? none (some 150) none none =
        Except.error "ValidationError" ∧
      LightStatus.mk? none none (some 150) none =
        Except.error "ValidationError" ∧
      LightStatus.mk? none none none (some 2) =
        Except.error "ValidationError" :=
  ⟨lightstatus_rejects_out_of_range none (some 150) none none
      (Or.inl ⟨150, rfl, Or.inr (by norm_num)⟩),
   lightstatus_rejects_out_of_range none none (some 150) none
      (Or.inr (Or.inl ⟨150, rfl, Or.inr (by norm_num)⟩)),
   lightstatus_rejects_out_of_range none none none (some 2)
      (Or.inr (Or.inr ⟨2, rfl, Or.inr (by norm_num)⟩))⟩

/-- C10: on the gateway path the readback re-validates the device's
post-update attributes through the same `LightStatus` bounds, so whenever the
post-update hue exceeds 100 (the device domain extends to 360) the tool
raises a `ValidationError` instead of returning the status. -/
theorem readback_revalidation_raises (deps : DeviceDeps) (upd : LightStatus)
    (h : ℚ) (hgw : deps.has_dirigera = true)
    (hhue : (applyRoomUpdateWithCalls deps.room_lights upd).1.color_hue =
      some h)
    (hgt : 100 < h) :
    (toggle_room_lights deps upd).1 = Except.error "ValidationError" := by
  have hvalid :
      LightStatus.valid
        ⟨some (applyRoomUpdateWithCalls deps.room_lights upd).1.is_on,
         (applyRoomUpdateWithCalls deps.room_lights upd).1.light_level,
         (applyRoomUpdateWithCalls deps.room_lights upd).1.color_hue,
         (applyRoomUpdateWithCalls deps.room_lights upd).1.color_saturation⟩ =
        false := by
    simp [LightStatus.valid, hhue,
      decide_eq_false_iff_not.mpr (not_le.mpr hgt)]
  simp [toggle_room_lights, hgw, LightStatus.mk?, hvalid]

/-- Witness for C10: turning on a light whose device hue reads 200 makes the
readback fail validation. -/
theorem readback_revalidation_raises_witness :
    (toggle_room_lights sampleHighHueDeps ⟨some true, none, none, none⟩).1 =
      Except.error "ValidationError" :=
  readback_revalidation_raises sampleHighHueDeps ⟨some true, none, none, none⟩
    200 rfl rfl (by norm_num)

/-- Nonnegative rationals format to an integer part, a dot, and one decimal
digit. -/
theorem formatFix1_one_decimal (q : ℚ) (hq : 0 ≤ q) :
    ∃ n d : Int, 0 ≤ n ∧ 0 ≤ d ∧ d < 10 ∧
      formatFix1 q = toString n ++ "." ++ toString d := by
  have hm : 0 ≤ roundHalfToEven (q * 10) := by
    have h10 : (0 : ℚ) ≤ q * 10 := by positivity
    have hfl : (0 : Int) ≤ ⌊q * 10⌋ := Int.floor_nonneg.mpr h10
    unfold roundHalfToEven
    dsimp only
    split
    · exact hfl
    · split
      · omega
      · split <;> omega
  refine ⟨roundHalfToEven (q * 10) / 10, roundHalfToEven (q * 10) % 10,
    Int.ediv_nonneg hm (by norm_num),
    Int.emod_nonneg _ (by norm_num),
    ?_, ?_⟩
  · have := @Int.emod_lt_of_pos (roundHalfToEven (q * 10)) 10 (by norm_num)
    omega
  · unfold formatFix1
    dsimp only
    rw [if_neg (by omega)]

/-- C9: the status projection contract.  For the binary devices the gateway
projection is `"on"` exactly when the outlet is on and `"off"` otherwise; the
light projection is `"off"` when the light is off and, when on, the fragment
reporting hue to one decimal, saturation times 100 to one decimal with a
percent sign, and brightness over 100 to one decimal; and with the gateway
flag false every projection is `"off"` for every possible device state, so no
device handle influences it. -/
theorem status_projection_contract :
    (∀ deps : DeviceDeps, deps.has_dirigera = true →
      (deps.desk_lamp_status = "on" ↔ deps.desk_lamp_outlet.is_on = true) ∧
        (deps.desk_lamp_status = "on" ∨ deps.desk_lamp_status = "off") ∧
        (deps.light_chain_status = "on" ↔
          deps.light_chain_outlet.is_on = true) ∧
        (deps.light_chain_status = "on" ∨ deps.light_chain_status = "off")) ∧
    (∀ (deps : DeviceDeps) (hue sat : ℚ) (br : Int),
      deps.has_dirigera = true →
      deps.room_lights.color_hue = some hue →
      deps.room_lights.color_saturation = some sat →
      deps.room_lights.light_level = some br →
      deps.room_lights_status =
        Except.ok
          (if deps.room_lights.is_on then
            "on, with color hue " ++ formatFix1 hue ++ ", saturation " ++
              formatFix1 (sat * 100) ++ "% and brightness " ++
              formatFix1 ((br : ℚ) / 100) ++ "%."
          else "off")) ∧
    (∀ q : ℚ, 0 ≤ q → ∃ n d : Int, 0 ≤ n ∧ 0 ≤ d ∧ d < 10 ∧
      formatFix1 q = toString n ++ "." ++ toString d) ∧
    (∀ deps : DeviceDeps, deps.has_dirigera = false →
      deps.desk_lamp_status = "off" ∧ deps.light_chain_status = "off" ∧
        deps.room_lights_status = Except.ok "off") := by
  refine ⟨?_, ?_, formatFix1_one_decimal, ?_⟩
  · intro deps hgw
    refine ⟨?_, ?_, ?_, ?_⟩ <;>
      simp only [DeviceDeps.desk_lamp_status, DeviceDeps.light_chain_status,
        hgw, Bool.not_true, Bool.false_eq_true, if_false] <;>
        split <;> simp_all
  · intro deps hue sat br hgw hhue hsat hbr
    simp [DeviceDeps.room_lights_status, hgw, hhue, hsat, hbr]
  · intro deps hgw
    refine ⟨?_, ?_, ?_⟩ <;>
      simp [DeviceDeps.desk_lamp_status, DeviceDeps.light_chain_status,
        DeviceDeps.room_lights_status, hgw]

/-- Witness for C9, at concrete environments with and without a gateway. -/
theorem status_projection_contract_witness :
    (sampleGatewayDeps.desk_lamp_status = "on" ↔
      sampleGatewayDeps.desk_lamp_outlet.is_on = true) ∧
    sampleGatewayDeps.room_lights_status =
      Except.ok
        (if sampleGatewayDeps.room_lights.is_on then
          "on, with color hue " ++ formatFix1 20 ++ ", saturation " ++
            formatFix1 ((1 / 2) * 100) ++ "% and brightness " ++
            formatFix1 (((50 : Int) : ℚ) / 100) ++ "%."
        else "off") ∧
    sampleNoGatewayDeps.desk_lamp_status = "off" ∧
    sampleNoGatewayDeps.light_chain_status = "off" ∧
    sampleNoGatewayDeps.room_lights_status = Except.ok "off" :=
  ⟨(status_projection_contract.1 sampleGatewayDeps rfl).1,
   status_projection_contract.2.1 sampleGatewayDeps 20 (1 / 2) 50 rfl rfl rfl
     rfl,
   (status_projection_contract.2.2.2 sampleNoGatewayDeps rfl).1,
   (status_projection_contract.2.2.2 sampleNoGatewayDeps rfl).2.1,
   (status_projection_contract.2.2.2 sampleNoGatewayDeps rfl).2.2⟩

/-- Every weekday produced by `strftime("%A")` is one of the seven names. -/
theorem weekdayName_mem (i : Fin 7) : weekdayName i ∈ weekdayNames := by
  fin_cases i <;> simp [weekdayName, weekdayNames]

/-- Every month produced by `strftime("%B")` is one of the twelve names. -/
theorem monthName_mem (i : Fin 12) : monthName i ∈ monthNames := by
  fin_cases i <;> simp [monthName, monthNames]

/-- The `%I` hour is a zero-padded number between 1 and 12. -/
theorem strftime_I_spec (h : Fin 24) :
    ∃ k : ℕ, 1 ≤ k ∧ k ≤ 12 ∧ strftime_I h = fmt2 k := by
  refine ⟨if h.val % 12 = 0 then 12 else h.val % 12, ?_, ?_, rfl⟩ <;>
    have := @Nat.mod_lt h.val 12 (by norm_num) <;> split <;> omega

/-- The `%p` marker is `"AM"` or `"PM"`. -/
theorem strftime_p_spec (h : Fin 24) :
    strftime_p h = "AM" ∨ strftime_p h = "PM" := by
  unfold strftime_p
  split <;> simp

/-- C8 counterexample: at the fixed clock value Monday, 12. October 2025,
09:30, the output of `get_current_time` does not match the spec's pattern as
stated, because it carries the extra prefix `"Today is "`, which is not a
weekday name. -/
theorem time_format_missing_prefix :
    ¬ specTimePattern (get_current_time sampleClock) := by
  intro hpat
  unfold specTimePattern at hpat
  obtain ⟨wd, dayStr, mon, yrStr, hh, mm, ap, hwd, -, -, -, -, -, -, heq⟩ :=
    hpat
  have h1 : (get_current_time sampleClock).data.take wd.data.length =
      wd.data := by
    rw [heq]
    simp only [String.data_append, List.append_assoc]
    exact List.take_left _ _
  simp only [weekdayNames] at hwd
  fin_cases hwd <;> revert h1 <;> decide

/-- C8 amended: for every injected clock value the output of
`get_current_time` is exactly `"Today is "` followed by the spec's pattern —
a weekday name, the day, a month name, the year, and a zero-padded 12-hour
time with an AM/PM marker. -/
theorem time_format_matches_prefixed_pattern (now : DateTime) :
    specTimePatternPrefixed (get_current_time now) := by
  obtain ⟨k, hk1, hk2, hkI⟩ := strftime_I_spec now.hour
  exact ⟨weekdayName now.weekday, toString now.day, monthName now.month,
    toString now.year, strftime_I now.hour, fmt2 now.minute.val,
    strftime_p now.hour,
    weekdayName_mem now.weekday, monthName_mem now.month,
    ⟨now.day, rfl⟩, ⟨now.year, rfl⟩,
    ⟨k, hk1, hk2, hkI⟩, ⟨now.minute.val, now.minute.isLt, rfl⟩,
    strftime_p_spec now.hour, rfl⟩

end SmartHome
